import Mathlib

/-!
Verification of the `midi` package (ports.go): port lifecycle, event
classification in an output port's processing loop, and the connector
family (Pipe, Router, Funnel, Chain).

Pure functions of the source are translated directly; stateful code is
modelled with explicit state and action traces.  Machine integers are Nat
(the raw wire frame is a packed 32-bit value; all extraction in the source
masks with `& 0xFF`-style operators, mirrored here with `&&&`/`>>>`).
Helper types the source references from elsewhere in the repository
(Event variants, command constants, `ControlChangeNames`, `ToRawMessage`)
are modelled from the spec and marked as such.
-/

namespace Midi

/-- The raw MIDI message struct: a decoded frame with channel, command
nibble, and two data bytes.  Mirrors `Message` as used by
`SystemOutPort.readEvent` (fields filled from `status & 0x0F`,
`status & 0xF0`, `(message >> 8) & 0xFF`, `(message >> 16) & 0xFF`). -/
structure Message where
  Channel : Nat
  Command : Nat
  Data1 : Nat
  Data2 : Nat
deriving DecidableEq, Repr

/-- Modelled from the spec: the MIDI note-on command nibble value
(high nibble of the status byte, 7-bit MIDI convention); the constant is
defined elsewhere in the repository, outside the given source file. -/
def NOTE_ON : Nat := 0x90

/-- Modelled from the spec: the MIDI note-off command nibble value. -/
def NOTE_OFF : Nat := 0x80

/-- Modelled from the spec: the MIDI control-change command nibble value. -/
def CONTROL_CHANGE : Nat := 0xB0

/-- Modelled from the spec: the fixed controller-number-to-name table
(`ControlChangeNames`), defined elsewhere in the repository.  Its exact
contents are irrelevant to the claims; representative entries are used.
Unknown numbers yield `none` (the Go map lookup fails, `ok = false`). -/
def ControlChangeNames : Nat → Option String := fun n =>
  if n = 1 then some "Modulation"
  else if n = 7 then some "Volume"
  else if n = 10 then some "Pan"
  else none

/-- The closed set of event variants moved through the bus.  `NoteOn`,
`NoteOff`, `ControlChange` are the classified variants; `raw` is the
`Message` passthrough published by the `default` branch of
`SystemOutPort.Run`. -/
inductive Event where
  | noteOn (channel key velocity : Nat)
  | noteOff (channel key velocity : Nat)
  | controlChange (channel number value : Nat) (name : String)
  | raw (m : Message)
deriving DecidableEq, Repr

/-- Modelled from the spec: `ToRawMessage`, the raw wire-level encoding of
an Event (defined elsewhere in the repository): a packed value whose low
byte is the status (command nibble plus channel), next byte data1, next
byte data2. -/
def Event.ToRawMessage : Event → Nat
  | .noteOn ch k v => (NOTE_ON + ch) + 256 * k + 65536 * v
  | .noteOff ch k v => (NOTE_OFF + ch) + 256 * k + 65536 * v
  | .controlChange ch n v _ => (CONTROL_CHANGE + ch) + 256 * n + 65536 * v
  | .raw m => (m.Command + m.Channel) + 256 * m.Data1 + 65536 * m.Data2

/-- `SystemOutPort.readEvent`: reads at most one event from the transport.
`frame = none` models `Pm_Read` returning no events (`eventsRead <= 0`):
the zero `Message` is returned.  Otherwise the packed 32-bit message is
decoded with the source's masks and shifts.  The error component is the
second member of the returned pair; the source returns `nil`
unconditionally. -/
def readEvent (frame : Option Nat) : Message × Option String :=
  match frame with
  | none => ({ Channel := 0, Command := 0, Data1 := 0, Data2 := 0 }, none)
  | some msg =>
    let status := msg &&& 0xFF
    ({ Channel := status &&& 0x0F
       Command := status &&& 0xF0
       Data1 := (msg >>> 8) &&& 0xFF
       Data2 := (msg >>> 16) &&& 0xFF }, none)

/-- The classification switch in `SystemOutPort.Run`: `NOTE_ON` publishes
`NoteOn{m.Channel, m.Data1, m.Data2}`; `NOTE_OFF` publishes
`NoteOff{m.Channel, m.Data1, 0}`; `CONTROL_CHANGE` publishes
`ControlChange` with the table lookup defaulting to "Unknown"; the
`default` branch publishes the raw `Message` itself. -/
def classify (m : Message) : Event :=
  if m.Command = NOTE_ON then .noteOn m.Channel m.Data1 m.Data2
  else if m.Command = NOTE_OFF then .noteOff m.Channel m.Data1 0
  else if m.Command = CONTROL_CHANGE then
    .controlChange m.Channel m.Data1 m.Data2 ((ControlChangeNames m.Data1).getD "Unknown")
  else .raw m

/-- A raw wire frame with command nibble `cmd`, channel `ch` and data
bytes `d1`, `d2`, packed in the layout of the transport boundary: low
byte `16*cmd + ch` (status), next byte `d1`, next byte `d2`. -/
def mkFrame (cmd ch d1 d2 : Nat) : Nat :=
  (16 * cmd + ch) + 256 * d1 + 65536 * d2

/-- What one iteration of `SystemOutPort.Run` does, as a function of the
select result, the poll result, and the frame the transport yields:
stop ready returns; a poll error panics; no data sleeps and retries;
otherwise the read message is classified and published — unless
`readEvent` reported an error, in which case the iteration retries. -/
inductive RunStep where
  | stopped
  | panicked
  | slept
  | retried
  | published (e : Event)
deriving DecidableEq, Repr

/-- One iteration of the `SystemOutPort.Run` loop body. -/
def runIteration (stopReady : Bool) (pollRes : Except String Bool)
    (frame : Option Nat) : RunStep :=
  if stopReady then .stopped
  else
    match pollRes with
    | .error _ => .panicked
    | .ok false => .slept
    | .ok true =>
      let (m, err) := readEvent frame
      match err with
      | some _ => .retried
      | none => .published (classify m)

/- Decode helper lemmas. -/

theorem land_255_eq_mod (n : Nat) : n &&& 255 = n % 256 :=
  Nat.and_pow_two_sub_one_eq_mod n 8

theorem land_15_eq_mod (n : Nat) : n &&& 15 = n % 16 :=
  Nat.and_pow_two_sub_one_eq_mod n 4

set_option maxRecDepth 4000 in
theorem land_240_eq (s : Nat) (h : s < 256) : s &&& 240 = 16 * (s / 16) := by
  revert h
  revert s
  decide

/-- Decoding a packed frame built by `mkFrame` recovers its four fields. -/
theorem readEvent_mkFrame (cmd ch d1 d2 : Nat)
    (hc : cmd < 16) (hch : ch < 16) (h1 : d1 < 256) (h2 : d2 < 256) :
    readEvent (some (mkFrame cmd ch d1 d2)) =
      ({ Channel := ch, Command := 16 * cmd, Data1 := d1, Data2 := d2 }, none) := by
  have hs : 16 * cmd + ch < 256 := by omega
  have hmod : mkFrame cmd ch d1 d2 % 256 = 16 * cmd + ch := by
    unfold mkFrame
    omega
  have hdiv8 : mkFrame cmd ch d1 d2 / 256 = d1 + 256 * d2 := by
    unfold mkFrame
    omega
  have hdiv16 : mkFrame cmd ch d1 d2 / 65536 = d2 := by
    unfold mkFrame
    omega
  unfold readEvent
  simp only [Nat.shiftRight_eq_div_pow]
  norm_num
  rw [land_255_eq_mod, hmod]
  constructor
  · rw [land_15_eq_mod]
    omega
  constructor
  · rw [land_240_eq _ hs]
    congr 1
    omega
  constructor
  · rw [land_255_eq_mod, hdiv8]
    omega
  · show mkFrame cmd ch d1 d2 / 65536 &&& 255 = d2
    rw [land_255_eq_mod, hdiv16]
    omega

/-- C1 (amended): for every raw frame decoded by the output port's loop,
the classification maps the command nibble as: note-on maps to `NoteOn`
preserving the velocity byte (also when it is 0); note-off maps to
`NoteOff` with velocity normalized to 0; control-change maps to
`ControlChange` with the name looked up in the fixed table (unknown
numbers mapping to "Unknown"); every other command maps to the raw
`Message` passthrough. -/
theorem run_classification_table (cmd ch d1 d2 : Nat)
    (hc : cmd < 16) (hch : ch < 16) (h1 : d1 < 128) (h2 : d2 < 128) :
    classify (readEvent (some (mkFrame cmd ch d1 d2))).1 =
      if 16 * cmd = NOTE_ON then Event.noteOn ch d1 d2
      else if 16 * cmd = NOTE_OFF then Event.noteOff ch d1 0
      else if 16 * cmd = CONTROL_CHANGE then
        Event.controlChange ch d1 d2 ((ControlChangeNames d1).getD "Unknown")
      else Event.raw { Channel := ch, Command := 16 * cmd, Data1 := d1, Data2 := d2 } := by
  rw [readEvent_mkFrame cmd ch d1 d2 hc hch (by omega) (by omega)]
  rfl

/-- C1 witness: a control-change frame on channel 2 with controller 7 and
value 5 classifies as `ControlChange{2, 7, 5, "Volume"}`. -/
theorem run_classification_table_witness :
    classify (readEvent (some (mkFrame 11 2 7 5))).1 =
      Event.controlChange 2 7 5 "Volume" := by
  rw [run_classification_table 11 2 7 5 (by decide) (by decide) (by decide) (by decide)]
  decide

/-- C1 counterexample: a raw note-on frame (command nibble 9) with
velocity 0 classifies as `NoteOn{0, 60, 0}`, not `NoteOff{0, 60, 0}`. -/
theorem noteOn_zero_velocity_stays_noteOn :
    classify (readEvent (some (mkFrame 9 0 60 0))).1 = Event.noteOn 0 60 0 ∧
    classify (readEvent (some (mkFrame 9 0 60 0))).1 ≠ Event.noteOff 0 60 0 := by
  decide

/-- C2 (amended): re-encoding the classified Event of a raw frame is
byte-identical for note-on (any velocity, including 0), control-change
and passthrough frames; a note-off frame re-encodes with its velocity
byte forced to 0 (byte-identical only when the original velocity was 0). -/
theorem roundTrip (cmd ch d1 d2 : Nat)
    (hc : cmd < 16) (hch : ch < 16) (h1 : d1 < 128) (h2 : d2 < 128) :
    (classify (readEvent (some (mkFrame cmd ch d1 d2))).1).ToRawMessage =
      if 16 * cmd = NOTE_OFF then mkFrame cmd ch d1 0 else mkFrame cmd ch d1 d2 := by
  rw [readEvent_mkFrame cmd ch d1 d2 hc hch (by omega) (by omega)]
  simp only [classify, Event.ToRawMessage, mkFrame, NOTE_ON, NOTE_OFF, CONTROL_CHANGE]
  split_ifs <;> simp_all [Event.ToRawMessage]

/-- C2 witness: a note-on frame with nonzero velocity round-trips to an
identical packed frame. -/
theorem roundTrip_witness :
    (classify (readEvent (some (mkFrame 9 1 60 100))).1).ToRawMessage =
      mkFrame 9 1 60 100 := by
  rw [roundTrip 9 1 60 100 (by decide) (by decide) (by decide) (by decide)]
  decide

/-- C2 counterexample: the note-off frame with velocity 64 re-encodes
with velocity 0, so the round trip is not byte-identical, and the frame
is not a note-on (so the claim's sole documented exception does not cover
it). -/
theorem roundTrip_counterexample :
    (classify (readEvent (some (mkFrame 8 0 60 64))).1).ToRawMessage ≠ mkFrame 8 0 60 64 ∧
    (readEvent (some (mkFrame 8 0 60 64))).1.Command ≠ NOTE_ON ∧
    (classify (readEvent (some (mkFrame 8 0 60 64))).1).ToRawMessage = mkFrame 8 0 60 0 := by
  decide

/-- C10: `SystemOutPort.readEvent` returns a nil error for every input,
so the decode-failure retry branch of `SystemOutPort.Run` is unreachable;
when the transport read yields no event, the zero `Message` is returned
and the loop publishes it through the default (raw passthrough) branch. -/
theorem readEvent_never_errs (frame : Option Nat) :
    (readEvent frame).2 = none ∧
    runIteration false (Except.ok true) frame ≠ RunStep.retried ∧
    runIteration false (Except.ok true) none =
      RunStep.published (Event.raw { Channel := 0, Command := 0, Data1 := 0, Data2 := 0 }) := by
  refine ⟨?_, ?_, by decide⟩
  · cases frame <;> rfl
  · cases frame <;> simp [runIteration, readEvent]

/-- C10 witness: at the empty read, the error is nil and the iteration
publishes rather than retries. -/
theorem readEvent_never_errs_witness :
    (readEvent none).2 = none ∧
    runIteration false (Except.ok true) none ≠ RunStep.retried :=
  ⟨(readEvent_never_errs none).1, (readEvent_never_errs none).2.1⟩

/-! ## Pipe forwarding loop (`Pipe.Connect`) -/

/-- The forwarding loop of `Pipe.Connect` over the source channel's
pending events.  `stopAt = some k` means the stop signal becomes
available at iteration `k` (the select then takes the stop case and the
loop returns); `none` means no stop signal intervenes.  Each other
iteration receives one event from `From.OutPort()`'s channel and sends it
unmodified to `To.InPort()`'s channel; when the source channel is closed
and drained (`ok == false`) the loop returns.  The result is the list of
events delivered to the destination, in delivery order. -/
def pipeConnect : List Event → Option Nat → List Event
  | _, some 0 => []
  | [], _ => []
  | e :: rest, stopAt => e :: pipeConnect rest (stopAt.map (· - 1))

theorem pipeConnect_none : ∀ src : List Event, pipeConnect src none = src
  | [] => rfl
  | e :: rest => by
    show e :: pipeConnect rest none = e :: rest
    rw [pipeConnect_none rest]

theorem pipeConnect_some : ∀ (src : List Event) (n : Nat),
    pipeConnect src (some n) = src.take n
  | _, 0 => by cases ‹List Event› <;> rfl
  | [], _ + 1 => rfl
  | e :: rest, n + 1 => by
    show e :: pipeConnect rest (some n) = e :: rest.take n
    rw [pipeConnect_some rest n]

/-- C3: `Pipe.Connect` forwards every event unmodified and in order: with
no stop signal the destination receives exactly the source sequence (no
drops, no reordering); if the stop signal arrives at iteration `n` the
loop exits immediately having delivered exactly the first `n` events, and
the loop also exits when the source channel is exhausted (closed). -/
theorem pipe_fifo (src : List Event) :
    pipeConnect src none = src ∧
    (∀ n : Nat, pipeConnect src (some n) = src.take n) ∧
    pipeConnect [] none = [] :=
  ⟨pipeConnect_none src, fun n => pipeConnect_some src n, rfl⟩

/-! ## Port shutdown (`SystemPort.Close`, `FakePort.Close`) -/

/-- The side effects `SystemPort.Close` can perform, in trace order. -/
inductive CloseAction where
  | sendStop
  | pmClose
  | closeChannel
deriving DecidableEq, Repr

/-- The state of a `SystemPort` relevant to `Close`: the open flag, the
number of tokens sitting in the capacity-1 stop slot, whether the events
channel has been closed, and the error the transport's `Pm_Close` would
report. -/
structure SystemPortState where
  isOpen : Bool
  stopTokens : Nat
  eventsClosed : Bool
  pmCloseErr : Option String
deriving DecidableEq, Repr

/-- `SystemPort.Close`: if open, it clears `isOpen`, sends the stop token
(`s.stop <- true`), closes the transport stream (`C.Pm_Close`), closes
the events channel, and returns the transport error; if not open, it does
nothing and returns nil.  The trace records the side effects in source
order. -/
def SystemPort.Close (s : SystemPortState) :
    SystemPortState × Option String × List CloseAction :=
  if s.isOpen then
    ({ s with isOpen := false, stopTokens := s.stopTokens + 1, eventsClosed := true },
     s.pmCloseErr,
     [.sendStop, .pmClose, .closeChannel])
  else (s, none, [])

/-- The lifecycle state of a Go channel: nil (never allocated), open, or
closed.  Closing a nil or already-closed channel panics. -/
inductive ChanState where
  | nil
  | opened
  | closed
deriving DecidableEq, Repr

/-- The state of a `FakePort`: the open flag and its events channel. -/
structure FakePortState where
  isOpen : Bool
  events : ChanState
deriving DecidableEq, Repr

/-- `FakePort.Open`: sets the flag and allocates the events channel. -/
def FakePort.Open (t : FakePortState) : FakePortState :=
  { t with isOpen := true, events := .opened }

/-- `FakePort.Close`: unconditionally executes `close(t.events)` and then
clears the flag.  When the channel is nil or already closed, the Go
runtime panics, modelled as `none`; on the non-panicking path the
returned error is always nil, so only the new state is carried. -/
def FakePort.Close (t : FakePortState) : Option FakePortState :=
  match t.events with
  | .opened => some { t with isOpen := false, events := .closed }
  | _ => none

/-- C4 (amended): `SystemPort.Close` on an already-closed port returns a
nil error, performs no transport operation and does not panic, but
`FakePort.Close` is not idempotent: on a port whose events channel is
already closed it closes a closed channel, which panics. -/
theorem close_idempotence_amended (s : SystemPortState) (h : s.isOpen = false) :
    SystemPort.Close s = (s, none, []) ∧
    (∀ t : FakePortState, t.events = ChanState.closed → FakePort.Close t = none) := by
  constructor
  · simp [SystemPort.Close, h]
  · intro t ht
    unfold FakePort.Close
    rw [ht]

/-- C4 witness: the concrete already-closed system port is untouched by a
second Close. -/
theorem close_idempotence_amended_witness :
    SystemPort.Close ⟨false, 1, true, none⟩ = (⟨false, 1, true, none⟩, none, []) :=
  (close_idempotence_amended ⟨false, 1, true, none⟩ rfl).1

/-- C4 counterexample: a `FakePort` opened and closed once panics on the
second `Close` (Go `close` of a closed channel), so not every Port
implementation's `Close` is idempotent and panic-free. -/
theorem fakePort_double_close_panics :
    FakePort.Close (FakePort.Open ⟨false, ChanState.nil⟩) =
      some ⟨false, ChanState.closed⟩ ∧
    FakePort.Close ⟨false, ChanState.closed⟩ = none := by
  constructor <;> rfl

/-- C5: `Close` on an open `SystemPort` delivers the stop signal strictly
before closing the event channel, always completes the local transition
to Closed (`isOpen = false`, one stop token queued, events channel
closed) even when the transport close errors, and returns exactly the
transport's close error. -/
theorem close_open_port (s : SystemPortState) (h : s.isOpen = true) :
    (SystemPort.Close s).1.isOpen = false ∧
    (SystemPort.Close s).2.1 = s.pmCloseErr ∧
    (SystemPort.Close s).2.2 =
      [CloseAction.sendStop, CloseAction.pmClose, CloseAction.closeChannel] ∧
    (SystemPort.Close s).2.2.indexOf CloseAction.sendStop <
      (SystemPort.Close s).2.2.indexOf CloseAction.closeChannel ∧
    (SystemPort.Close s).1.stopTokens = s.stopTokens + 1 ∧
    (SystemPort.Close s).1.eventsClosed = true := by
  refine ⟨?_, ?_, ?_, ?_, ?_, ?_⟩ <;> simp [SystemPort.Close, h]

/-- C5 witness: even with a failing transport close, the concrete open
port ends Closed and the error is surfaced. -/
theorem close_open_port_witness :
    (SystemPort.Close ⟨true, 0, false, some "transport failure"⟩).1.isOpen = false ∧
    (SystemPort.Close ⟨true, 0, false, some "transport failure"⟩).2.1 =
      some "transport failure" :=
  ⟨(close_open_port ⟨true, 0, false, some "transport failure"⟩ rfl).1,
   (close_open_port ⟨true, 0, false, some "transport failure"⟩ rfl).2.1⟩

/-! ## Router broadcast (`Router.Connect`) -/

/-- The concurrent task `Router.Connect` spawns for one received event:
`for _, to := range r.To { to.InPort().Events() <- e }` — it writes the
event to every destination's input channel in sequence (destinations are
indexed `0 .. n-1`). -/
def broadcastTask (n : Nat) (e : Event) : List (Nat × Event) :=
  (List.range n).map fun j => (j, e)

/-- The tasks spawned by `Router.Connect`'s receive loop for the sequence
of events received from `From.OutPort()`: one task per event. -/
def routerTasks (events : List Event) (n : Nat) : List (List (Nat × Event)) :=
  events.map (broadcastTask n)

/-- The events destination `j` receives out of an interleaved sequence of
channel writes. -/
def deliveredTo (j : Nat) (writes : List (Nat × Event)) : List Event :=
  (writes.filter fun w => w.1 == j).map fun w => w.2

theorem range_filter_eq (n j : Nat) (hj : j < n) :
    (List.range n).filter (fun i => i == j) = [j] := by
  induction n with
  | zero => omega
  | succ n ih =>
    rw [List.range_succ, List.filter_append]
    by_cases h : j < n
    · rw [ih h]
      have hne : ¬ (n == j) = true := by simp; omega
      simp [hne]
    · have hjn : j = n := by omega
      subst hjn
      have hnil : (List.range j).filter (fun i => i == j) = [] := by
        refine List.filter_eq_nil_iff.mpr ?_
        intro a ha
        have := List.mem_range.mp ha
        simp
        omega
      rw [hnil]
      simp

theorem deliveredTo_broadcastTask (n j : Nat) (hj : j < n) (e : Event) :
    deliveredTo j (broadcastTask n e) = [e] := by
  unfold deliveredTo broadcastTask
  rw [List.filter_map]
  have : ((fun w : Nat × Event => w.1 == j) ∘ fun j' => (j', e)) = fun i => i == j := rfl
  rw [this, range_filter_eq n j hj]
  rfl

theorem deliveredTo_routerTasks (events : List Event) (n j : Nat) (hj : j < n) :
    deliveredTo j (routerTasks events n).flatten = events := by
  induction events with
  | nil => rfl
  | cons e rest ih =>
    show deliveredTo j (broadcastTask n e ++ (routerTasks rest n).flatten) = e :: rest
    unfold deliveredTo
    rw [List.filter_append, List.map_append]
    have h1 := deliveredTo_broadcastTask n j hj e
    unfold deliveredTo at h1 ih
    rw [h1, ih]
    rfl

/-- C6: `Router.Connect` spawns one task per received event, each writing
the event to all `n` destinations in sequence; under any interleaving of
those concurrent writes (any permutation of the spawned writes), every
destination `j < n` receives exactly the source events, as a multiset (no
cross-event ordering is asserted). -/
theorem router_broadcast_complete (events : List Event) (n : Nat)
    (ws : List (Nat × Event)) (hws : ws.Perm (routerTasks events n).flatten)
    (j : Nat) (hj : j < n) :
    (deliveredTo j ws).Perm events := by
  have h1 : (deliveredTo j ws).Perm (deliveredTo j (routerTasks events n).flatten) :=
    (hws.filter _).map _
  rw [deliveredTo_routerTasks events n j hj] at h1
  exact h1

/-- C6 witness: with two events, two destinations and the sequential
interleaving itself, destination 0 receives both events. -/
theorem router_broadcast_complete_witness :
    (deliveredTo 0 ((routerTasks [Event.noteOn 0 60 100, Event.noteOff 0 60 0] 2).flatten)).Perm
      [Event.noteOn 0 60 100, Event.noteOff 0 60 0] :=
  router_broadcast_complete [Event.noteOn 0 60 100, Event.noteOff 0 60 0] 2
    _ (List.Perm.refl _) 0 (by decide)

/-! ## Funnel shutdown daisy chain (`Funnel.Stop`, `Funnel.Connect`) -/

/-- `Funnel.Stop` sends exactly one stop token into the capacity-1 stop
slot (`f.stop <- true`, executed once). -/
def funnelStopSend (slot : Nat) : Nat := slot + 1

/-- The stop branch of one forwarding task spawned by `Funnel.Connect`:
`case <-f.stop: f.stop <- true; return` — when a token is available the
task consumes it, re-emits one fresh token on the same slot, and exits;
with no token the task does not exit (it keeps forwarding).  Returns the
slot contents afterwards and whether the task exited. -/
def taskStopBranch (slot : Nat) : Nat × Bool :=
  match slot with
  | 0 => (0, false)
  | k + 1 => (k + 1, true)

/-- Running the stop branches of `n` forwarding tasks one after another:
returns the final slot contents and how many tasks exited. -/
def runShutdown : Nat → Nat → Nat × Nat
  | 0, slot => (slot, 0)
  | n + 1, slot =>
    let r := taskStopBranch slot
    let rest := runShutdown n r.1
    (rest.1, rest.2 + if r.2 then 1 else 0)

theorem runShutdown_one : ∀ n : Nat, runShutdown n 1 = (1, n)
  | 0 => rfl
  | n + 1 => by
    show ((runShutdown n 1).1, (runShutdown n 1).2 + 1) = (1, n + 1)
    rw [runShutdown_one n]

/-- C7: the owning `Funnel.Stop` puts exactly one token in the stop slot;
every forwarding task that consumes the token re-emits one fresh token on
the same slot before exiting (the slot count is restored), so starting
from the single token all `N` tasks terminate in the daisy chain, and the
slot still holds one token at the end. -/
theorem funnel_daisy_chain (n : Nat) :
    funnelStopSend 0 = 1 ∧
    runShutdown n (funnelStopSend 0) = (1, n) ∧
    (∀ slot : Nat, (taskStopBranch (slot + 1)).1 = slot + 1 ∧
       (taskStopBranch (slot + 1)).2 = true) ∧
    (taskStopBranch 0).2 = false :=
  ⟨rfl, runShutdown_one n, fun _ => ⟨rfl, rfl⟩, rfl⟩

/-! ## Connector construction (`NewPipe`, `NewChain`) -/

/-- Device lifecycle operations a `NewPipe` call can perform, in order. -/
inductive PipeOp where
  | openFrom
  | openTo
  | closeFrom
  | closeTo
deriving DecidableEq, Repr

/-- The `Pipe` value: whether it holds the From and To device references
and an allocated stop channel.  The zero value `Pipe{}` holds nothing. -/
structure PipeModel where
  hasFrom : Bool
  hasTo : Bool
  hasStop : Bool
deriving DecidableEq, Repr

/-- The zero `Pipe{}` value returned on a construction failure. -/
def emptyPipe : PipeModel := ⟨false, false, false⟩

/-- The outcome of `NewPipe`: the returned pipe value, the returned
error, and the trace of device lifecycle operations performed. -/
structure NewPipeResult where
  pipe : PipeModel
  err : Option String
  trace : List PipeOp
deriving DecidableEq, Repr

/-- `NewPipe(from, to)`: builds the pipe value with a fresh stop channel,
opens From, and on failure returns `Pipe{}` with the error; then opens
To, and on failure returns `Pipe{}` with the error; no Close is ever
issued on the already-opened device (no rollback).  Each device is
characterised by the error its `Open()` reports. -/
def NewPipe (fromErr toErr : Option String) : NewPipeResult :=
  match fromErr with
  | some e => ⟨emptyPipe, some e, [.openFrom]⟩
  | none =>
    match toErr with
    | some e => ⟨emptyPipe, some e, [.openFrom, .openTo]⟩
    | none => ⟨⟨true, true, true⟩, none, [.openFrom, .openTo]⟩

/-- C8: `NewPipe` opens From first and then To; on either failure it
returns the empty `Pipe{}` value together with the error; and no close
operation ever appears in its trace — a device opened earlier in the same
construction call is not rolled back. -/
theorem newPipe_no_rollback (fromErr toErr : Option String) :
    (PipeOp.closeFrom ∉ (NewPipe fromErr toErr).trace ∧
     PipeOp.closeTo ∉ (NewPipe fromErr toErr).trace) ∧
    (NewPipe fromErr toErr).trace.head? = some PipeOp.openFrom ∧
    (∀ e, fromErr = some e →
       NewPipe fromErr toErr = ⟨emptyPipe, some e, [PipeOp.openFrom]⟩) ∧
    (∀ e, fromErr = none → toErr = some e →
       NewPipe fromErr toErr = ⟨emptyPipe, some e, [PipeOp.openFrom, PipeOp.openTo]⟩) ∧
    (fromErr = none → toErr = none → (NewPipe fromErr toErr).err = none) := by
  cases fromErr <;> cases toErr <;> simp [NewPipe]

/-- C8 witness: when From opens but To fails, the error is surfaced with
the empty pipe, and the trace holds the two opens and no close. -/
theorem newPipe_no_rollback_witness :
    NewPipe none (some "device busy") =
      ⟨emptyPipe, some "device busy", [PipeOp.openFrom, PipeOp.openTo]⟩ :=
  (newPipe_no_rollback none (some "device busy")).2.2.2.1 "device busy" rfl rfl

/-- The `Chain` value: the devices it references and the pipes built. -/
structure ChainModel where
  numDevices : Nat
  pipes : List PipeModel
deriving DecidableEq, Repr

/-- The loop of `NewChain`: for `i := 1; i < numDevices; i++` it calls
`NewPipe(devices[i-1], devices[i])` on adjacent devices, returning the
first error (with the pipes discarded, as `Chain{}` is returned), or the
list of pipes built. -/
def chainPipes : List (Option String) → Option String × List PipeModel
  | d1 :: d2 :: rest =>
    match (NewPipe d1 d2).err with
    | some e => (some e, [])
    | none =>
      let r := chainPipes (d2 :: rest)
      match r.1 with
      | some e => (some e, [])
      | none => (none, (NewPipe d1 d2).pipe :: r.2)
  | _ => (none, [])

/-- `NewChain(devices...)`: first allocates `make([]Pipe, numDevices-1)`
— `numDevices` is a Go `int`, so with zero devices the length is `-1` and
the Go runtime panics (modelled as `none`); then the loop builds the
adjacent pipes, returning `Chain{}` plus the error on the first failure,
or the populated chain. -/
def NewChain (devices : List (Option String)) : Option (ChainModel × Option String) :=
  if (devices.length : Int) - 1 < 0 then none
  else
    let r := chainPipes devices
    match r.1 with
    | some e => some (⟨0, []⟩, some e)
    | none => some (⟨devices.length, r.2⟩, none)

/-- C9: `NewChain` panics exactly when called with zero devices (the
pipe-slice allocation of length `numDevices - 1` is negative); with one
device it succeeds, building a chain with zero pipes and no error. -/
theorem newChain_zero_panics :
    (∀ devices : List (Option String), NewChain devices = none ↔ devices = []) ∧
    (∀ d : Option String, NewChain [d] = some (⟨1, []⟩, none)) := by
  constructor
  · intro devices
    cases devices with
    | nil => simp [NewChain]
    | cons d rest =>
      simp only [NewChain]
      have hlen : ¬ ((d :: rest).length : Int) - 1 < 0 := by
        simp
      rw [if_neg hlen]
      cases h : (chainPipes (d :: rest)).1 <;> simp
  · intro d
    have : chainPipes [d] = (none, []) := rfl
    simp [NewChain, this]

/-- C9 witness: the empty device list panics; a singleton succeeds with
zero pipes. -/
theorem newChain_zero_panics_witness :
    NewChain ([] : List (Option String)) = none ∧
    NewChain [(none : Option String)] = some (⟨1, []⟩, none) :=
  ⟨(newChain_zero_panics.1 []).mpr rfl, newChain_zero_panics.2 none⟩

end Midi
